import Mathlib

/-
Shallow embedding of the serving runtime in src/ml/inference_service.py:
the license gate (class LicenseVerifier), the model registry cache
(load_model over the LOADED_MODELS dict), the feature-vector assembly
performed inside each handler, and the per-domain post-processing of the
prediction handlers.  Real arithmetic is modeled by the rationals and
timestamps by integers (seconds); float rounding of the Python runtime is
not modeled.  The mutable module-level cache is passed explicitly: a cache
is a map from model name to cached artifact, and the stateful functions
return the cache that results from the call.
-/

/-- A request-payload value, abstracted by how the handler-side conversion
np.array with dtype float32 treats it: `num x` stands for any value the
conversion maps to the number `x` (ints, floats, bools, numeric strings);
`nonNum` stands for any value whose conversion raises (non-numeric
strings, None, nested objects). -/
inductive Value where
  | num (x : ℚ)
  | nonNum
deriving DecidableEq

/-- Conversion of a single payload value to a float32 entry, as performed
elementwise by np.array with dtype float32 at line 176: numeric values
convert, anything else raises ValueError or TypeError. -/
def coerceFloat : Value → Except String ℚ
  | .num x => .ok x
  | .nonNum => .error "could not convert value to float32"

/-- Feature-vector assembly, lines 172-176: the list comprehension
builds features_dict.get(f, 0) for each f in feature_list in schema
order, and np.array converts every entry to float32, raising on the
first non-convertible entry. -/
def assemble (schema : List String) (payload : String → Option Value) :
    Except String (List ℚ) :=
  match schema with
  | [] => .ok []
  | f :: rest =>
    match coerceFloat ((payload f).getD (Value.num 0)) with
    | .error e => .error e
    | .ok x =>
      match assemble rest payload with
      | .error e => .error e
      | .ok xs => .ok (x :: xs)

/-- The five feature identifiers of the FEATURE_GATES table (lines 38-44),
which are also exactly the keys set to True by LicenseVerifier.verify. -/
def featureNames : List String :=
  ["demand_forecasting", "dynamic_pricing", "guest_churn",
   "fraud_detection", "maintenance_prediction"]

/-- timedelta(days=30) of line 69, in seconds. -/
def grantPeriod : ℤ := 30 * 86400

/-- Python string truthiness: a string tests true iff it is nonempty. -/
def strTruthy (s : String) : Bool := s.length != 0

/-- The state of a LicenseVerifier instance (lines 53-57): the resolved
key, validity flag, expiry timestamp, and the feature dict (modeled as an
association list, looked up with dict.get and default False). -/
structure LicenseVerifier where
  license_key : Option String
  is_valid : Bool
  expires_at : Option ℤ
  features : List (String × Bool)

/-- dict.get(k, False) over the features association list. -/
def dictGet (d : List (String × Bool)) (k : String) : Bool :=
  match d.find? (fun p => p.1 == k) with
  | some p => p.2
  | none => false

/-- LicenseVerifier.verify (lines 62-82): when the resolved key is truthy
and longer than 20 characters the verifier becomes valid, with expiry 30
days after the verification time and all five features enabled;
otherwise the state is unchanged (and the method never raises: the local
validation cannot throw, and a try/except guards it anyway). -/
def LicenseVerifier.verify (v : LicenseVerifier) (now : ℤ) : LicenseVerifier :=
  match v.license_key with
  | some s =>
    if strTruthy s && decide (s.length > 20) then
      { v with is_valid := true,
               expires_at := some (now + grantPeriod),
               features := featureNames.map (fun f => (f, true)) }
    else v
  | none => v

/-- LicenseVerifier.__init__ (lines 53-60): resolve the key as the passed
key if truthy, else the LICENSE_KEY environment value; start invalid with
no features; call verify only when the resolved key is truthy. -/
def mkVerifier (key envKey : Option String) (now : ℤ) : LicenseVerifier :=
  let lk : Option String :=
    match key with
    | some s => if strTruthy s then some s else envKey
    | none => envKey
  let base : LicenseVerifier := ⟨lk, false, none, []⟩
  match lk with
  | some s => if strTruthy s then base.verify now else base
  | none => base

/-- LicenseVerifier.can_use_feature (lines 84-90), with datetime.now() of
the call passed as `now`: deny when invalid, deny when an expiry is set
and now is strictly past it, otherwise answer features.get(feature, False). -/
def LicenseVerifier.can_use_feature (v : LicenseVerifier) (feature : String)
    (now : ℤ) : Bool :=
  if !v.is_valid then false
  else if (match v.expires_at with
           | some t => decide (now > t)
           | none => false) then false
  else dictGet v.features feature

/-- An HTTPException value: status code and detail string. -/
structure HTTPException where
  status_code : ℕ
  detail : String
deriving DecidableEq

/-- The metadata JSON document of a model, modeled by the fields the
service reads, with absence represented as the read sites see it:
feature_schema via metadata.get with default [], model_version via
metadata.get (None when absent), test_mape via the nested
evaluation_metrics lookup, anomaly_threshold via the nested
unsupervised_metrics lookup. -/
structure Metadata where
  feature_schema : List String
  model_version : Option String
  test_mape : Option ℚ
  anomaly_threshold : Option ℚ
deriving DecidableEq

/-- The dict that load_model caches (line 118): the unpickled payload,
the parsed metadata, and the load timestamp. -/
structure Artifact (α : Type) where
  model : α
  metadata : Metadata
  loaded_at : ℤ
deriving DecidableEq

/-- What the models directory holds under a given name: no pickle file at
all, a pickle or metadata file that fails to load or parse (any exception
inside the try block of load_model), or a good pair of payload and
metadata. -/
inductive StorageResult (α : Type) where
  | missing
  | corrupt (msg : String)
  | good (model : α) (metadata : Metadata)

/-- load_model (lines 100-125).  Returns the result, the cache after the
call, and the number of storage load attempts performed in the call (0 on
a cache hit, 1 otherwise).  A cache hit returns the cached dict directly;
a missing pickle file raises 404 before the try block; any failure while
reading or deserializing raises 500 without touching the cache; a
successful load stores the new artifact in the cache under the name. -/
def load_model {α : Type} (cache : String → Option (Artifact α))
    (storage : String → StorageResult α) (model_name : String) (now : ℤ) :
    Except HTTPException (Artifact α) × (String → Option (Artifact α)) × ℕ :=
  match cache model_name with
  | some r => (.ok r, cache, 0)
  | none =>
    match storage model_name with
    | .missing =>
      (.error ⟨404, "Model " ++ model_name ++ " not found"⟩, cache, 1)
    | .corrupt msg =>
      (.error ⟨500, "Error loading model: " ++ msg⟩, cache, 1)
    | .good m md =>
      let result : Artifact α := ⟨m, md, now⟩
      (.ok result, fun n => if n = model_name then some result else cache n, 1)

/-- The demand pickle as predict_demand consumes it: the handler reads
model_data['model']['model'] and calls .predict on it; a predictor maps
the assembled feature row to the first entry of its prediction. -/
structure DemandPickle where
  model : List ℚ → ℚ

/-- The fields of the demand request body that the handler reads:
request_data.get('property_id'), request_data.get('room_type'), and
request_data.get('features', {}) with an empty dict modeled as the
everywhere-none map. -/
structure DemandRequest where
  property_id : Option String
  room_type : Option String
  features : String → Option Value

/-- The demand response of lines 181-188. -/
structure DemandResponse where
  property_id : Option String
  room_type : Option String
  model_version : Option String
  forecast_value : ℚ
  confidence : ℚ
  timestamp : ℤ

/-- predict_demand (lines 142-192).  The license check happens before the
try block, so its 403 propagates untouched.  Everything else runs inside
the try block, and the except Exception clause catches every exception —
including the HTTPException raised by load_model, since HTTPException
subclasses Exception — and re-raises a 500 whose detail wraps str(e),
which for an HTTPException renders as status_code, a colon, and the
detail. -/
def predict_demand (license : LicenseVerifier) (now : ℤ)
    (cache : String → Option (Artifact DemandPickle))
    (storage : String → StorageResult DemandPickle)
    (req : DemandRequest) :
    Except HTTPException DemandResponse × (String → Option (Artifact DemandPickle)) :=
  if !(license.can_use_feature "demand_forecasting" now) then
    (.error ⟨403, "Feature not available in your license"⟩, cache)
  else
    match load_model cache storage "demand_forecast" now with
    | (.error e, cache1, _) =>
      (.error ⟨500, "Prediction error: " ++ toString e.status_code ++ ": " ++ e.detail⟩,
       cache1)
    | (.ok md, cache1, _) =>
      match assemble md.metadata.feature_schema req.features with
      | .error msg => (.error ⟨500, "Prediction error: " ++ msg⟩, cache1)
      | .ok xs =>
        (.ok ⟨req.property_id, req.room_type, md.metadata.model_version,
              md.model.model xs, (md.metadata.test_mape).getD (15/100), now⟩,
         cache1)

/-- Python round to the nearest integer, ties to even. -/
def pyRound (x : ℚ) : ℤ :=
  let f := Int.floor x
  let frac := x - f
  if frac < 1/2 then f
  else if 1/2 < frac then f + 1
  else if f % 2 = 0 then f else f + 1

/-- round(x, 2): round to 2 decimal places, ties to even. -/
def round2 (x : ℚ) : ℚ := (pyRound (x * 100) : ℚ) / 100

/-- predict_pricing post-processing (lines 226-244): clamp the raw model
output to the band from 0.8 to 1.3 times current_price, compute the
change percentage from the clamped value, and report the pair of the
clamped price and the change percentage, each rounded to 2 decimals. -/
def pricing_post (current_price raw : ℚ) : ℚ × ℚ :=
  let recommended_price :=
    max (current_price * (8/10)) (min (current_price * (13/10)) raw)
  let price_change_percent :=
    ((recommended_price - current_price) / current_price) * 100
  (round2 recommended_price, round2 price_change_percent)

/-- predict_fraud post-processing (lines 283-310): the supervised
probability defaults to 0 when no supervised model is present; the
anomaly score is the negated per-sample outlier score, defaulting to 0
when no isolation forest is present; the threshold is the stored
unsupervised_metrics value with fallback 0.7; the flag is the disjunction
and the action the block/review/accept ladder. -/
def fraud_post (supervised_proba outlier_score anomaly_threshold : Option ℚ) :
    Bool × String :=
  let fraud_probability := supervised_proba.getD 0
  let anomaly_score :=
    match outlier_score with
    | some s => -s
    | none => 0
  let fraud_flag :=
    decide (fraud_probability > 1/2) ||
    decide (anomaly_score > anomaly_threshold.getD (7/10))
  let recommended_action :=
    if fraud_probability > 7/10 then "block"
    else if fraud_flag then "review"
    else "accept"
  (fraud_flag, recommended_action)

/-- One recommended action of the churn handler. -/
structure Recommendation where
  action : String
  details : String
deriving DecidableEq

/-- The fixed recommendation list for the high segment (lines 370-373). -/
def highRecs : List Recommendation :=
  [⟨"loyalty_offer", "Offer discount on next stay"⟩,
   ⟨"personal_outreach", "Manager to call guest"⟩]

/-- The fixed recommendation list for the medium segment (lines 375-377). -/
def mediumRecs : List Recommendation :=
  [⟨"feedback_request", "Ask for feedback to improve"⟩]

/-- predict_churn post-processing (lines 360-377): segment by the 0.7 and
0.4 thresholds, then look the recommendation list up by segment. -/
def churn_post (churn_probability : ℚ) : String × List Recommendation :=
  let risk_segment :=
    if churn_probability > 7/10 then "high"
    else if churn_probability > 4/10 then "medium"
    else "low"
  let recommendations :=
    if risk_segment = "high" then highRecs
    else if risk_segment = "medium" then mediumRecs
    else []
  (risk_segment, recommendations)

/-- Metadata used by the registry witnesses. -/
def mdW : Metadata := ⟨["f1"], some "v1", none, none⟩

/-- The artifact the witness load produces. -/
def artW : Artifact ℕ := ⟨7, mdW, 5⟩

/-- The cache state after the witness load. -/
def cacheW : String → Option (Artifact ℕ) :=
  fun n => if n = "demand_forecast" then some artW else none

/-- The empty cache over natural-number payloads. -/
def cache0 : String → Option (Artifact ℕ) := fun _ => none

/-- C1 counterexample: with schema ["amount"] and a payload holding a
non-numeric value under "amount", the claim demands the assembled vector
Except.ok [0.0]; the code instead fails the conversion, so assembly does
not produce that vector. -/
theorem C1_counterexample :
    (fun f => if f = "amount" then some Value.nonNum else none) "amount" =
      some Value.nonNum ∧
    assemble ["amount"] (fun f => if f = "amount" then some Value.nonNum else none) ≠
      Except.ok [(0 : ℚ)] := by
  refine ⟨rfl, ?_⟩
  have h : assemble ["amount"]
      (fun f => if f = "amount" then some Value.nonNum else none) =
      Except.error "could not convert value to float32" := rfl
  rw [h]
  intro hc
  exact Except.noConfusion hc

/-- C1 (amended): when every value present under a schema key is numeric,
the assembled vector is the schema-ordered map sending each name to its
payload value (0.0 when the key is absent), hence has length len(S) with
element i equal to P.get(S[i], 0.0); a non-numeric value present under a
schema key instead makes the conversion raise (surfaced by the handler as
a 500), it is not coerced to 0.0. -/
theorem C1_assemble (S : List String) (P : String → Option Value)
    (h : ∀ f ∈ S, P f ≠ some Value.nonNum) :
    assemble S P =
      Except.ok (S.map (fun f =>
        match P f with
        | some (Value.num x) => x
        | _ => (0 : ℚ))) := by
  induction S with
  | nil => rfl
  | cons f rest ih =>
    have hf := h f (List.mem_cons_self f rest)
    have hrest : ∀ g ∈ rest, P g ≠ some Value.nonNum :=
      fun g hg => h g (List.mem_cons_of_mem f hg)
    rw [List.map_cons]
    cases hP : P f with
    | none => simp [assemble, hP, coerceFloat, ih hrest]
    | some v =>
      cases v with
      | num x => simp [assemble, hP, coerceFloat, ih hrest]
      | nonNum => exact absurd hP hf

/-- C1 witness: the amended theorem applied at a concrete schema and
payload, one key present and numeric, one key absent. -/
theorem C1_assemble_witness :
    (∀ f ∈ (["occupancy_rate", "mystery"] : List String),
      (fun g => if g = "occupancy_rate" then some (Value.num (13/20)) else none) f ≠
        some Value.nonNum) ∧
    assemble ["occupancy_rate", "mystery"]
      (fun g => if g = "occupancy_rate" then some (Value.num (13/20)) else none) =
      Except.ok [13/20, 0] := by
  refine ⟨by decide, ?_⟩
  have h := C1_assemble ["occupancy_rate", "mystery"]
    (fun g => if g = "occupancy_rate" then some (Value.num (13/20)) else none)
    (by decide)
  simpa using h

/-- Looking an entitled feature up in the all-true feature dict built by
verify answers true. -/
theorem dictGet_all_true (l : List String) (f : String) (hf : f ∈ l) :
    dictGet (l.map (fun g => (g, true))) f = true := by
  induction l with
  | nil => cases hf
  | cons a as ih =>
    by_cases h : a = f
    · subst h
      simp [dictGet, List.find?]
    · have hmem : f ∈ as := by
        rcases List.mem_cons.mp hf with h1 | h1
        · exact absurd h1.symm h
        · exact h1
      have hbeq : (a == f) = false := by
        simp [h]
      simpa [dictGet, List.find?, hbeq] using ih hmem

/-- C4 counterexample: for a valid 21-character key verified at time 0
the grant expires at 2592000, yet can_use_feature at exactly that instant
still answers true, while the claim demands false whenever now is greater
than or equal to expiresAt. -/
theorem C4_counterexample :
    (mkVerifier (some "ABCDEFGHIJKLMNOPQRSTU") none 0).expires_at =
      some 2592000 ∧
    (mkVerifier (some "ABCDEFGHIJKLMNOPQRSTU") none 0).can_use_feature
      "demand_forecasting" 2592000 = true := by
  exact ⟨rfl, rfl⟩

/-- C4 (amended): for a grant obtained from a valid token (length over
20) verified at time tv and any entitled feature, can_use_feature judges
expiry against the time of the call: it answers true exactly when the
call time is at most tv plus the 30-day grant period, so it is false
whenever now is strictly past expiresAt and still true at the boundary
instant now equal to expiresAt (the code tests strict greater-than). -/
theorem C4_expiry (s : String) (tv now : ℤ) (feature : String)
    (hs : s.length > 20) (hf : feature ∈ featureNames) :
    (mkVerifier (some s) none tv).can_use_feature feature now =
      decide (now ≤ tv + grantPeriod) := by
  have hT : strTruthy s = true := by
    simp only [strTruthy, bne_iff_ne, ne_eq]
    omega
  have hlen : decide (s.length > 20) = true := decide_eq_true hs
  simp only [mkVerifier, LicenseVerifier.verify, hT, hlen, Bool.and_self,
    if_true, Bool.true_and]
  simp only [LicenseVerifier.can_use_feature, dictGet_all_true featureNames feature hf]
  by_cases hnow : now > tv + grantPeriod
  · simp [hnow]
    try omega
  · simp [hnow]
    try omega

/-- C4 witness: the amended theorem applied at a concrete valid token,
verification time 0 and call time 100. -/
theorem C4_expiry_witness :
    ("ABCDEFGHIJKLMNOPQRSTU".length > 20 ∧
      "demand_forecasting" ∈ featureNames) ∧
    (mkVerifier (some "ABCDEFGHIJKLMNOPQRSTU") none 0).can_use_feature
      "demand_forecasting" 100 = decide ((100 : ℤ) ≤ 0 + grantPeriod) :=
  ⟨⟨by decide, by decide⟩,
   C4_expiry "ABCDEFGHIJKLMNOPQRSTU" 0 100 "demand_forecasting"
     (by decide) (by decide)⟩

/-- C5: a short (at most 20 characters) or absent token, with no
environment fallback, yields an invalid grant: valid is false and
can_use_feature answers false for every feature at every call time.
Verification is a total function of the inputs, so it never throws on
malformed input. -/
theorem C5_fail_closed (tok : Option String) (feature : String) (now t : ℤ)
    (h : tok = none ∨ ∃ s, tok = some s ∧ s.length ≤ 20) :
    (mkVerifier tok none now).is_valid = false ∧
    (mkVerifier tok none now).can_use_feature feature t = false := by
  have hbase : (mkVerifier tok none now).is_valid = false := by
    rcases h with h | ⟨s, rfl, hlen⟩
    · subst h
      rfl
    · by_cases hT : strTruthy s = true
      · have hlen2 : decide (s.length > 20) = false := by
          simp
          omega
        simp [mkVerifier, LicenseVerifier.verify, hT, hlen2]
      · have hT2 : strTruthy s = false := by
          simpa using hT
        simp [mkVerifier, hT2]
  refine ⟨hbase, ?_⟩
  simp [LicenseVerifier.can_use_feature, hbase]

/-- C5 witness: the theorem applied at a concrete 8-character token. -/
theorem C5_fail_closed_witness :
    ((some "shortkey" : Option String) = none ∨
      ∃ s, (some "shortkey" : Option String) = some s ∧ s.length ≤ 20) ∧
    ((mkVerifier (some "shortkey") none 0).is_valid = false ∧
     (mkVerifier (some "shortkey") none 0).can_use_feature
       "fraud_detection" 5 = false) :=
  ⟨Or.inr ⟨"shortkey", rfl, by decide⟩,
   C5_fail_closed (some "shortkey") "fraud_detection" 0 5
     (Or.inr ⟨"shortkey", rfl, by decide⟩)⟩

/-- C2: with a valid license and no demand_forecast artifact on disk, the
caller of predict_demand receives a 500 that wraps the registry 404
inside its detail text, not the 404 itself: the except Exception clause
of the handler catches the HTTPException raised by load_model and
re-raises it as an internal error, so NotFound never reaches the caller
as its typed error. -/
theorem C2_notfound_becomes_500 :
    (predict_demand (mkVerifier (some "ABCDEFGHIJKLMNOPQRSTU") none 0) 0
        (fun _ => none) (fun _ => StorageResult.missing)
        ⟨none, none, fun _ => none⟩).1 =
      Except.error
        ⟨500, "Prediction error: 404: Model demand_forecast not found"⟩ := by
  rfl

/-- C6 counterexample: with current_price 100 the raw output 100.001 lies
inside the clamp interval, so the claim demands a reported recommended
price of exactly 100.001; the code reports round(100.001, 2) = 100.0. -/
theorem C6_counterexample :
    ((100 : ℚ) * (8/10)) ≤ 100001/1000 ∧
    ((100001 : ℚ)/1000) ≤ 100 * (13/10) ∧
    (pricing_post 100 (100001/1000)).1 ≠ (100001 : ℚ)/1000 := by
  refine ⟨by norm_num, by norm_num, ?_⟩
  have hmin : min ((100 : ℚ) * (13/10)) (100001/1000) = 100001/1000 := by
    rw [min_eq_right]
    norm_num
  have hmax : max ((100 : ℚ) * (8/10)) (100001/1000) = 100001/1000 := by
    rw [max_eq_right]
    norm_num
  have h : (pricing_post 100 (100001/1000)).1 = 100 := by
    simp only [pricing_post, hmin, hmax, round2, pyRound]
    norm_num
  rw [h]
  norm_num

/-- C6 (amended): for positive current price c, the reported pair is the
clamped raw output rounded to 2 decimals together with the change percent
computed from the unrounded clamped value and rounded to 2 decimals; the
clamped value lies in the band from 0.8 times c to 1.3 times c and equals
the raw output whenever the raw output is already inside that band. -/
theorem C6_pricing (c r : ℚ) (hc : 0 < c) :
    pricing_post c r =
      (round2 (max (c * (8/10)) (min (c * (13/10)) r)),
       round2 ((max (c * (8/10)) (min (c * (13/10)) r) - c) / c * 100)) ∧
    c * (8/10) ≤ max (c * (8/10)) (min (c * (13/10)) r) ∧
    max (c * (8/10)) (min (c * (13/10)) r) ≤ c * (13/10) ∧
    (c * (8/10) ≤ r → r ≤ c * (13/10) →
      max (c * (8/10)) (min (c * (13/10)) r) = r) := by
  refine ⟨rfl, le_max_left _ _, ?_, ?_⟩
  · exact max_le (by nlinarith) (min_le_left _ _)
  · intro h1 h2
    rw [min_eq_right h2, max_eq_right h1]

/-- C6 witness: the amended theorem applied at current price 100 and raw
output 200, recovering the concrete instance of the claim: recommended
price 130.00 and change percent 30.0. -/
theorem C6_pricing_witness :
    (0 : ℚ) < 100 ∧ pricing_post 100 200 = (130, 30) := by
  refine ⟨by norm_num, ((C6_pricing 100 200 (by norm_num)).1).trans ?_⟩
  have hmin : min ((100 : ℚ) * (13/10)) (200 : ℚ) = 100 * (13/10) := by
    rw [min_eq_left]
    norm_num
  have hmax : max ((100 : ℚ) * (8/10)) ((100 : ℚ) * (13/10)) = 100 * (13/10) := by
    rw [max_eq_right]
    norm_num
  simp only [hmin, hmax, round2, pyRound]
  norm_num

/-- C7: with the supervised probability p present, outlier score minus a
(so anomaly score a) and stored threshold thr, fraud_flag holds exactly
when p exceeds 0.5 or a exceeds thr, and recommended_action is the
block/review/accept ladder keyed on p over 0.7 and the flag; a missing
supervised model behaves as p equal to 0, a missing anomaly model as
anomaly score 0, and a missing stored threshold as 0.7. -/
theorem C7_fraud (p a thr : ℚ) :
    ((fraud_post (some p) (some (-a)) (some thr)).1 = true ↔
      (p > 1/2 ∨ a > thr)) ∧
    (fraud_post (some p) (some (-a)) (some thr)).2 =
      (if p > 7/10 then "block"
       else if (fraud_post (some p) (some (-a)) (some thr)).1 then "review"
       else "accept") ∧
    fraud_post none (some (-a)) (some thr) =
      fraud_post (some 0) (some (-a)) (some thr) ∧
    fraud_post (some p) none (some thr) =
      fraud_post (some p) (some (-0)) (some thr) ∧
    fraud_post (some p) (some (-a)) none =
      fraud_post (some p) (some (-a)) (some (7/10)) := by
  refine ⟨?_, rfl, rfl, by simp [fraud_post], rfl⟩
  simp [fraud_post]

/-- C8: the risk segment is high above probability 0.7, medium above 0.4
up to 0.7, low at or below 0.4, and the recommended actions are exactly
the fixed per-segment table: the two high actions, the one medium action,
none for low. -/
theorem C8_churn (q : ℚ) :
    (q > 7/10 → churn_post q = ("high", highRecs)) ∧
    (4/10 < q ∧ q ≤ 7/10 → churn_post q = ("medium", mediumRecs)) ∧
    (q ≤ 4/10 → churn_post q = ("low", [])) ∧
    highRecs.length = 2 ∧ mediumRecs.length = 1 := by
  refine ⟨fun h => ?_, fun h => ?_, fun h => ?_, rfl, rfl⟩
  · simp [churn_post, h]
  · have h1 : ¬ q > 7/10 := by linarith [h.2]
    have h2 : q > 4/10 := h.1
    simp [churn_post, h1, h2]
  · have h1 : ¬ q > 7/10 := by linarith
    have h2 : ¬ q > 4/10 := by linarith
    simp [churn_post, h1, h2]

/-- C8 witness: the theorem applied at the three probabilities named by
the specification, 0.75, 0.5 and 0.1. -/
theorem C8_churn_witness :
    ((3/4 : ℚ) > 7/10 ∧ churn_post (3/4) = ("high", highRecs)) ∧
    (((4/10 : ℚ) < 1/2 ∧ (1/2 : ℚ) ≤ 7/10) ∧
      churn_post (1/2) = ("medium", mediumRecs)) ∧
    ((1/10 : ℚ) ≤ 4/10 ∧ churn_post (1/10) = ("low", [])) :=
  ⟨⟨by norm_num, (C8_churn (3/4)).1 (by norm_num)⟩,
   ⟨⟨by norm_num, by norm_num⟩,
     (C8_churn (1/2)).2.1 ⟨by norm_num, by norm_num⟩⟩,
   ⟨by norm_num, (C8_churn (1/10)).2.2.1 (by norm_num)⟩⟩

/-- C9: once a load_model call for a name has succeeded, a subsequent
call for the same name returns the identical cached artifact, leaves the
cache unchanged, and performs no storage access at all — regardless of
what storage then holds and of the later call time. -/
theorem C9_cache_hit {α : Type} (cache : String → Option (Artifact α))
    (storage storage2 : String → StorageResult α) (name : String)
    (now now2 : ℤ) (a : Artifact α)
    (cache1 : String → Option (Artifact α)) (k : ℕ)
    (h : load_model cache storage name now = (Except.ok a, cache1, k)) :
    load_model cache1 storage2 name now2 = (Except.ok a, cache1, 0) := by
  unfold load_model at h
  cases hc : cache name with
  | some r =>
    rw [hc] at h
    simp only [Prod.mk.injEq] at h
    obtain ⟨h1, h2, _⟩ := h
    obtain rfl : r = a := by
      cases h1
      rfl
    subst h2
    unfold load_model
    rw [hc]
  | none =>
    rw [hc] at h
    cases hs : storage name with
    | missing =>
      rw [hs] at h
      simp at h
    | corrupt msg =>
      rw [hs] at h
      simp at h
    | good m md =>
      rw [hs] at h
      simp only [Prod.mk.injEq] at h
      obtain ⟨h1, h2, _⟩ := h
      obtain rfl : (⟨m, md, now⟩ : Artifact α) = a := by
        cases h1
        rfl
      subst h2
      unfold load_model
      simp

/-- C9 witness: the theorem applied to a first load from good storage
into an empty cache, followed by a second call with storage emptied. -/
theorem C9_cache_hit_witness :
    (load_model (fun _ => none) (fun _ => StorageResult.good 7 mdW)
        "demand_forecast" 5 = (Except.ok artW, cacheW, 1)) ∧
    load_model cacheW (fun _ => StorageResult.missing)
        "demand_forecast" 9 = (Except.ok artW, cacheW, 0) :=
  ⟨rfl,
   C9_cache_hit (fun _ => none) (fun _ => StorageResult.good 7 mdW)
     (fun _ => StorageResult.missing) "demand_forecast" 5 9 artW cacheW 1 rfl⟩

/-- C10: a failed load_model call — missing artifact or a
deserialization or metadata failure — caches nothing: the cache after
the call is the cache before it, the name was and remains absent from
the cache, and a later call for the same name performs a fresh storage
load attempt. -/
theorem C10_no_error_caching {α : Type} (cache : String → Option (Artifact α))
    (storage storage2 : String → StorageResult α) (name : String)
    (now now2 : ℤ) (e : HTTPException)
    (cache1 : String → Option (Artifact α)) (k : ℕ)
    (h : load_model cache storage name now = (Except.error e, cache1, k)) :
    cache1 = cache ∧ cache name = none ∧
    (load_model cache1 storage2 name now2).2.2 = 1 := by
  unfold load_model at h
  cases hc : cache name with
  | some r =>
    rw [hc] at h
    simp at h
  | none =>
    rw [hc] at h
    have hcc : cache1 = cache := by
      cases hs : storage name with
      | missing =>
        rw [hs] at h
        simp only [Prod.mk.injEq] at h
        exact h.2.1.symm
      | corrupt msg =>
        rw [hs] at h
        simp only [Prod.mk.injEq] at h
        exact h.2.1.symm
      | good m md =>
        rw [hs] at h
        simp at h
    refine ⟨hcc, rfl, ?_⟩
    unfold load_model
    rw [hcc, hc]
    cases storage2 name <;> rfl

/-- C10 witness: the theorem applied to a load against empty storage and
an empty cache, with a retry at a later time. -/
theorem C10_no_error_caching_witness :
    (load_model cache0 (fun _ => StorageResult.missing)
        "demand_forecast" 0 =
      (Except.error ⟨404, "Model demand_forecast not found"⟩, cache0, 1)) ∧
    (cache0 = cache0 ∧ cache0 "demand_forecast" = none ∧
     (load_model cache0 (fun _ => StorageResult.missing)
        "demand_forecast" 3).2.2 = 1) :=
  ⟨rfl,
   C10_no_error_caching cache0 (fun _ => StorageResult.missing)
     (fun _ => StorageResult.missing) "demand_forecast" 0 3
     ⟨404, "Model demand_forecast not found"⟩ cache0 1 rfl⟩
